import Mathlib

/-! Shallow embedding of `alignment_error_util.py` from PhidgetMountController,
together with proofs about its behaviour.

`compute_alignment_error` mirrors the Python function of the same name: every
angle argument is a real number holding the `.radian` value of the
corresponding astropy quantity, and the `ZeroDivisionError` that Python raises
when the determinant is exactly zero (the first `/ d` fails) is modelled by an
`Option` result: `none` means the call raises, `some` carries the returned
pair `(delta_e, delta_a)`.
-/

open Real

namespace AlignmentErrorUtil

/-- An equatorial coordinate, mirroring the two astropy `SkyCoord` fields the
source reads: right ascension / hour angle and declination, in radians. -/
structure SkyCoord where
  ra : ℝ
  dec : ℝ

noncomputable section

open scoped Classical

/-- Shallow embedding of `compute_alignment_error(lat, s1, s2, err_ra, err_dec)`.
The body mirrors the Python source line by line: the determinant `d`, the four
matrix elements `a11 a12 a21 a22`, and the returned linear combinations.
Python raises `ZeroDivisionError` at the first division when `d == 0`, which is
modelled by returning `none` in that case. -/
def compute_alignment_error (lat : ℝ) (s1 s2 : SkyCoord) (err_ra err_dec : ℝ) :
    Option (ℝ × ℝ) :=
  let d := Real.cos lat * (Real.tan s1.dec + Real.tan s2.dec) *
      (1 - Real.cos (s1.ra - s2.ra))
  if d = 0 then none
  else
    let a11 := Real.cos lat * (Real.sin s2.ra - Real.sin s1.ra) / d
    let a12 := -Real.cos lat *
        (Real.tan s1.dec * Real.cos s1.ra - Real.tan s2.dec * Real.cos s2.ra) / d
    let a21 := (Real.cos s1.ra - Real.cos s2.ra) / d
    let a22 := (Real.tan s2.dec * Real.sin s2.ra -
        Real.tan s1.dec * Real.sin s1.ra) / d
    some (a11 * err_ra + a12 * err_dec, a21 * err_ra + a22 * err_dec)

/-- Determinant formula as written in the spec:
`d = cos(lat) · (tan(dec1) + tan(dec2)) · (1 − cos(ra1 − ra2))`. -/
def spec_d (lat ra1 dec1 ra2 dec2 : ℝ) : ℝ :=
  Real.cos lat * (Real.tan dec1 + Real.tan dec2) * (1 - Real.cos (ra1 - ra2))

/-- Matrix element from the spec: `a11 = cos(lat)·(sin(ra2) − sin(ra1)) / d`. -/
def spec_a11 (lat ra1 dec1 ra2 dec2 : ℝ) : ℝ :=
  Real.cos lat * (Real.sin ra2 - Real.sin ra1) / spec_d lat ra1 dec1 ra2 dec2

/-- Matrix element from the spec:
`a12 = −cos(lat)·(tan(dec1)·cos(ra1) − tan(dec2)·cos(ra2)) / d`. -/
def spec_a12 (lat ra1 dec1 ra2 dec2 : ℝ) : ℝ :=
  -(Real.cos lat * (Real.tan dec1 * Real.cos ra1 - Real.tan dec2 * Real.cos ra2)) /
    spec_d lat ra1 dec1 ra2 dec2

/-- Matrix element from the spec: `a21 = (cos(ra1) − cos(ra2)) / d`. -/
def spec_a21 (lat ra1 dec1 ra2 dec2 : ℝ) : ℝ :=
  (Real.cos ra1 - Real.cos ra2) / spec_d lat ra1 dec1 ra2 dec2

/-- Matrix element from the spec:
`a22 = (tan(dec2)·sin(ra2) − tan(dec1)·sin(ra1)) / d`. -/
def spec_a22 (lat ra1 dec1 ra2 dec2 : ℝ) : ℝ :=
  (Real.tan dec2 * Real.sin ra2 - Real.tan dec1 * Real.sin ra1) /
    spec_d lat ra1 dec1 ra2 dec2

/-- A unit vector on the celestial sphere for a horizontal coordinate. -/
def unitVector (alt az : ℝ) : ℝ × ℝ × ℝ :=
  (Real.cos alt * Real.cos az, Real.cos alt * Real.sin az, Real.sin alt)

/-- Euclidean inner product on the 3-dimensional model of the sphere. -/
def dot3 (v w : ℝ × ℝ × ℝ) : ℝ :=
  v.1 * w.1 + v.2.1 * w.2.1 + v.2.2 * w.2.2

/-- Rotation about the zenith axis: shifts azimuth by `-a`. -/
def rotZ (a : ℝ) (v : ℝ × ℝ × ℝ) : ℝ × ℝ × ℝ :=
  (Real.cos a * v.1 + Real.sin a * v.2.1,
   -(Real.sin a) * v.1 + Real.cos a * v.2.1,
   v.2.2)

/-- Rotation in the x-z plane: shifts altitude (for vectors in that plane)
by `-a`. -/
def rotY (a : ℝ) (v : ℝ × ℝ × ℝ) : ℝ × ℝ × ℝ :=
  (Real.cos a * v.1 + Real.sin a * v.2.2,
   v.2.1,
   -(Real.sin a) * v.1 + Real.cos a * v.2.2)

/-- Modelled from the spec: `get_altaz_in_rotated_frame` in the source
delegates wholly to astropy's `AltAz` frame and `SkyOffsetFrame`, which are
not part of `src/`. Per spec section 4.3, the offset frame is the horizontal
frame whose origin is displaced from the true zenith-referenced frame by
`(delta_alt, delta_az)`, and the input coordinate (as a unit vector) is
re-expressed in the offset frame's basis by exact spherical-rotation
composition: an axis rotation by `delta_az` about the zenith axis followed by
an axis rotation by `delta_alt`. `time` and `location` identify the horizontal
frame in which the input altitude/azimuth is taken and do not enter the
rotation itself. -/
def get_altaz_in_rotated_frame {T L : Type} (delta_alt delta_az : ℝ)
    (_time : T) (_location : L) (alt az : ℝ) : ℝ × ℝ × ℝ :=
  rotY delta_alt (rotZ delta_az (unitVector alt az))

end

/-! Helper lemmas shared by several of the results below. -/

theorem compute_alignment_error_eq_some {lat ra1 dec1 ra2 dec2 e1 e2 : ℝ}
    (h : spec_d lat ra1 dec1 ra2 dec2 ≠ 0) :
    compute_alignment_error lat ⟨ra1, dec1⟩ ⟨ra2, dec2⟩ e1 e2 =
      some (spec_a11 lat ra1 dec1 ra2 dec2 * e1 + spec_a12 lat ra1 dec1 ra2 dec2 * e2,
            spec_a21 lat ra1 dec1 ra2 dec2 * e1 + spec_a22 lat ra1 dec1 ra2 dec2 * e2) := by
  simp only [compute_alignment_error, spec_d] at h ⊢
  rw [if_neg h]
  simp only [spec_a11, spec_a12, spec_a21, spec_a22, spec_d, Option.some_inj,
    Prod.mk.injEq]
  constructor <;> ring

theorem compute_alignment_error_eq_none_iff {lat ra1 dec1 ra2 dec2 e1 e2 : ℝ} :
    compute_alignment_error lat ⟨ra1, dec1⟩ ⟨ra2, dec2⟩ e1 e2 = none ↔
      spec_d lat ra1 dec1 ra2 dec2 = 0 := by
  by_cases h : spec_d lat ra1 dec1 ra2 dec2 = 0
  · simp only [compute_alignment_error, spec_d] at h ⊢
    rw [if_pos h]
    simpa using h
  · rw [compute_alignment_error_eq_some h]
    simpa using h

theorem spec_d_swap (lat ra1 dec1 ra2 dec2 : ℝ) :
    spec_d lat ra2 dec2 ra1 dec1 = spec_d lat ra1 dec1 ra2 dec2 := by
  simp only [spec_d]
  rw [show ra2 - ra1 = -(ra1 - ra2) by ring, Real.cos_neg]
  ring

theorem dot3_rotZ (a : ℝ) (v w : ℝ × ℝ × ℝ) :
    dot3 (rotZ a v) (rotZ a w) = dot3 v w := by
  simp only [dot3, rotZ]
  linear_combination (v.1 * w.1 + v.2.1 * w.2.1) * Real.sin_sq_add_cos_sq a

theorem dot3_rotY (a : ℝ) (v w : ℝ × ℝ × ℝ) :
    dot3 (rotY a v) (rotY a w) = dot3 v w := by
  simp only [dot3, rotY]
  linear_combination (v.1 * w.1 + v.2.2 * w.2.2) * Real.sin_sq_add_cos_sq a

/-! Certified numeric bounds on the trigonometric values appearing in the
reference fixture of C3, obtained from truncated power series of `exp` on ℂ
together with Mathlib's 20-digit rational bounds on π. -/

noncomputable section

/-- Degree-10 truncated Taylor series of cosine. -/
def Pc (x : ℝ) : ℝ :=
  1 - x ^ 2 / 2 + x ^ 4 / 24 - x ^ 6 / 720 + x ^ 8 / 40320 - x ^ 10 / 3628800

/-- Degree-11 truncated Taylor series of sine. -/
def Ps (x : ℝ) : ℝ :=
  x - x ^ 3 / 6 + x ^ 5 / 120 - x ^ 7 / 5040 + x ^ 9 / 362880 - x ^ 11 / 39916800

end

theorem sum_exp_series_cos (x : ℝ) :
    (∑ m ∈ Finset.range 12, ((x : ℂ) * Complex.I) ^ m / m.factorial) +
      (∑ m ∈ Finset.range 12, (-(x : ℂ) * Complex.I) ^ m / m.factorial) =
      2 * (Pc x : ℂ) := by
  simp only [Finset.sum_range_succ, Finset.range_zero, Finset.sum_empty, neg_mul,
    pow_succ, pow_zero, mul_one, Nat.factorial, Pc, zero_add]
  push_cast
  apply Complex.ext <;> simp [div_eq_mul_inv, Complex.normSq] <;> ring_nf

theorem sum_exp_series_sin (x : ℝ) :
    (∑ m ∈ Finset.range 12, ((x : ℂ) * Complex.I) ^ m / m.factorial) -
      (∑ m ∈ Finset.range 12, (-(x : ℂ) * Complex.I) ^ m / m.factorial) =
      2 * Complex.I * (Ps x : ℂ) := by
  simp only [Finset.sum_range_succ, Finset.range_zero, Finset.sum_empty, neg_mul,
    pow_succ, pow_zero, mul_one, Nat.factorial, Ps, zero_add]
  push_cast
  apply Complex.ext <;> simp [div_eq_mul_inv, Complex.normSq] <;> ring_nf

theorem cos_taylor {x : ℝ} (hx : |x| ≤ 1) :
    |Real.cos x - Pc x| ≤ 3 / 10 ^ 9 := by
  have habs : Complex.abs ((x : ℂ) * Complex.I) = |x| := by
    simp [Complex.abs_ofReal]
  have habs' : Complex.abs (-(x : ℂ) * Complex.I) = |x| := by
    simp [Complex.abs_ofReal]
  have hb1 := Complex.exp_bound (x := (x : ℂ) * Complex.I) (by rw [habs]; exact hx)
    (n := 12) (by norm_num)
  have hb2 := Complex.exp_bound (x := -(x : ℂ) * Complex.I) (by rw [habs']; exact hx)
    (n := 12) (by norm_num)
  rw [habs] at hb1
  rw [habs'] at hb2
  have hpow : |x| ^ 12 ≤ 1 := pow_le_one₀ (abs_nonneg x) hx
  replace hb1 := le_trans hb1 (le_trans
    (mul_le_mul_of_nonneg_right hpow (by positivity))
    (by rw [one_mul]; norm_num [Nat.factorial] :
      _ * (((Nat.succ 12 : ℕ) : ℝ) * (((Nat.factorial 12 : ℕ) : ℝ) * ((12 : ℕ) : ℝ))⁻¹) ≤
        (13 : ℝ) / 5748019200))
  replace hb2 := le_trans hb2 (le_trans
    (mul_le_mul_of_nonneg_right hpow (by positivity))
    (by rw [one_mul]; norm_num [Nat.factorial] :
      _ * (((Nat.succ 12 : ℕ) : ℝ) * (((Nat.factorial 12 : ℕ) : ℝ) * ((12 : ℕ) : ℝ))⁻¹) ≤
        (13 : ℝ) / 5748019200))
  have key : Complex.cos (x : ℂ) - ((Pc x : ℝ) : ℂ) =
      ((Complex.exp ((x : ℂ) * Complex.I) -
          ∑ m ∈ Finset.range 12, ((x : ℂ) * Complex.I) ^ m / m.factorial) +
        (Complex.exp (-(x : ℂ) * Complex.I) -
          ∑ m ∈ Finset.range 12, (-(x : ℂ) * Complex.I) ^ m / m.factorial)) / 2 := by
    rw [show Complex.cos (x : ℂ) =
        (Complex.exp ((x : ℂ) * Complex.I) + Complex.exp (-(x : ℂ) * Complex.I)) / 2
      from rfl]
    linear_combination (sum_exp_series_cos x) / 2
  calc |Real.cos x - Pc x|
      = Complex.abs (Complex.cos (x : ℂ) - ((Pc x : ℝ) : ℂ)) := by
        rw [← Complex.abs_ofReal, Complex.ofReal_sub, Complex.ofReal_cos]
    _ ≤ (Complex.abs (Complex.exp ((x : ℂ) * Complex.I) -
            ∑ m ∈ Finset.range 12, ((x : ℂ) * Complex.I) ^ m / m.factorial) +
          Complex.abs (Complex.exp (-(x : ℂ) * Complex.I) -
            ∑ m ∈ Finset.range 12, (-(x : ℂ) * Complex.I) ^ m / m.factorial)) / 2 := by
        rw [key, map_div₀]
        simp only [Complex.abs_two]
        gcongr
        exact Complex.abs.add_le _ _
    _ ≤ 3 / 10 ^ 9 := by linarith [hb1, hb2]

theorem sin_taylor {x : ℝ} (hx : |x| ≤ 1) :
    |Real.sin x - Ps x| ≤ 3 / 10 ^ 9 := by
  have habs : Complex.abs ((x : ℂ) * Complex.I) = |x| := by
    simp [Complex.abs_ofReal]
  have habs' : Complex.abs (-(x : ℂ) * Complex.I) = |x| := by
    simp [Complex.abs_ofReal]
  have hb1 := Complex.exp_bound (x := (x : ℂ) * Complex.I) (by rw [habs]; exact hx)
    (n := 12) (by norm_num)
  have hb2 := Complex.exp_bound (x := -(x : ℂ) * Complex.I) (by rw [habs']; exact hx)
    (n := 12) (by norm_num)
  rw [habs] at hb1
  rw [habs'] at hb2
  have hpow : |x| ^ 12 ≤ 1 := pow_le_one₀ (abs_nonneg x) hx
  replace hb1 := le_trans hb1 (le_trans
    (mul_le_mul_of_nonneg_right hpow (by positivity))
    (by rw [one_mul]; norm_num [Nat.factorial] :
      _ * (((Nat.succ 12 : ℕ) : ℝ) * (((Nat.factorial 12 : ℕ) : ℝ) * ((12 : ℕ) : ℝ))⁻¹) ≤
        (13 : ℝ) / 5748019200))
  replace hb2 := le_trans hb2 (le_trans
    (mul_le_mul_of_nonneg_right hpow (by positivity))
    (by rw [one_mul]; norm_num [Nat.factorial] :
      _ * (((Nat.succ 12 : ℕ) : ℝ) * (((Nat.factorial 12 : ℕ) : ℝ) * ((12 : ℕ) : ℝ))⁻¹) ≤
        (13 : ℝ) / 5748019200))
  have key : Complex.sin (x : ℂ) - ((Ps x : ℝ) : ℂ) =
      ((Complex.exp (-(x : ℂ) * Complex.I) -
          ∑ m ∈ Finset.range 12, (-(x : ℂ) * Complex.I) ^ m / m.factorial) -
        (Complex.exp ((x : ℂ) * Complex.I) -
          ∑ m ∈ Finset.range 12, ((x : ℂ) * Complex.I) ^ m / m.factorial)) *
        Complex.I / 2 := by
    rw [show Complex.sin (x : ℂ) =
        (Complex.exp (-(x : ℂ) * Complex.I) - Complex.exp ((x : ℂ) * Complex.I)) *
          Complex.I / 2
      from rfl]
    linear_combination (-(Complex.I) / 2) * sum_exp_series_sin x +
      (-(Ps x : ℂ)) * Complex.I_sq
  calc |Real.sin x - Ps x|
      = Complex.abs (Complex.sin (x : ℂ) - ((Ps x : ℝ) : ℂ)) := by
        rw [← Complex.abs_ofReal, Complex.ofReal_sub, Complex.ofReal_sin]
    _ ≤ (Complex.abs (Complex.exp (-(x : ℂ) * Complex.I) -
            ∑ m ∈ Finset.range 12, (-(x : ℂ) * Complex.I) ^ m / m.factorial) +
          Complex.abs (Complex.exp ((x : ℂ) * Complex.I) -
            ∑ m ∈ Finset.range 12, ((x : ℂ) * Complex.I) ^ m / m.factorial)) / 2 := by
        rw [key, map_div₀, map_mul]
        simp only [Complex.abs_two, Complex.abs_I, mul_one]
        gcongr
        exact Complex.abs.sub_le_add _ _
    _ ≤ 3 / 10 ^ 9 := by linarith [hb1, hb2]

theorem cos_enclosure {θ a b lo hi : ℝ} (ha : 0 ≤ a) (hab : a ≤ θ) (hθb : θ ≤ b)
    (hb1 : b ≤ 1) (hlo : lo ≤ Pc b - 3 / 10 ^ 9) (hhi : Pc a + 3 / 10 ^ 9 ≤ hi) :
    lo ≤ Real.cos θ ∧ Real.cos θ ≤ hi := by
  have hθ0 : 0 ≤ θ := le_trans ha hab
  have hb0 : 0 ≤ b := le_trans hθ0 hθb
  have hπ : (3 : ℝ) < π := Real.pi_gt_three
  have hθπ : θ ≤ π := le_trans hθb (by linarith)
  have hbπ : b ≤ π := by linarith
  have haa : |a| ≤ 1 := by rw [abs_of_nonneg ha]; linarith
  have hba : |b| ≤ 1 := by rw [abs_of_nonneg hb0]; exact hb1
  have hca := abs_le.1 (cos_taylor haa)
  have hcb := abs_le.1 (cos_taylor hba)
  have h1 : Real.cos θ ≤ Real.cos a := Real.cos_le_cos_of_nonneg_of_le_pi ha hθπ hab
  have h2 : Real.cos b ≤ Real.cos θ := Real.cos_le_cos_of_nonneg_of_le_pi hθ0 hbπ hθb
  exact ⟨by linarith [hcb.1], by linarith [hca.2]⟩

theorem sin_enclosure {θ a b lo hi : ℝ} (ha : 0 ≤ a) (hab : a ≤ θ) (hθb : θ ≤ b)
    (hb1 : b ≤ 1) (hlo : lo ≤ Ps a - 3 / 10 ^ 9) (hhi : Ps b + 3 / 10 ^ 9 ≤ hi) :
    lo ≤ Real.sin θ ∧ Real.sin θ ≤ hi := by
  have hθ0 : 0 ≤ θ := le_trans ha hab
  have hb0 : 0 ≤ b := le_trans hθ0 hθb
  have hπ : (3 : ℝ) < π := Real.pi_gt_three
  have haπ : -(π / 2) ≤ a := by linarith
  have hθπ : -(π / 2) ≤ θ := by linarith
  have hθ2 : θ ≤ π / 2 := le_trans hθb (by linarith)
  have hb2 : b ≤ π / 2 := by linarith
  have haa : |a| ≤ 1 := by rw [abs_of_nonneg ha]; linarith
  have hba : |b| ≤ 1 := by rw [abs_of_nonneg hb0]; exact hb1
  have hsa := abs_le.1 (sin_taylor haa)
  have hsb := abs_le.1 (sin_taylor hba)
  have h1 : Real.sin a ≤ Real.sin θ := Real.sin_le_sin_of_le_of_le_pi_div_two haπ hθ2 hab
  have h2 : Real.sin θ ≤ Real.sin b := Real.sin_le_sin_of_le_of_le_pi_div_two hθπ hb2 hθb
  exact ⟨by linarith [hsa.1], by linarith [hsb.2]⟩

/-! Interval enclosures for the seven trigonometric atoms of the C3 fixture. -/

theorem cos_lat_bounds :
    0.735309004999 ≤ Real.cos ((42 + 40 / 60) * (π / 180)) ∧
      Real.cos ((42 + 40 / 60) * (π / 180)) ≤ 0.735309011 :=
  cos_enclosure (a := 32 * 3.14159265358979323846 / 135)
    (b := 32 * 3.14159265358979323847 / 135)
    (by norm_num) (by linarith [Real.pi_gt_d20]) (by linarith [Real.pi_lt_d20])
    (by norm_num) (by norm_num [Pc]) (by norm_num [Pc])

theorem sin_dec1_bounds :
    0.743144822461 ≤ Real.sin (48 * (π / 180)) ∧
      Real.sin (48 * (π / 180)) ≤ 0.743144828462 :=
  sin_enclosure (a := 4 * 3.14159265358979323846 / 15)
    (b := 4 * 3.14159265358979323847 / 15)
    (by norm_num) (by linarith [Real.pi_gt_d20]) (by linarith [Real.pi_lt_d20])
    (by norm_num) (by norm_num [Ps]) (by norm_num [Ps])

theorem cos_dec1_bounds :
    0.66913060311 ≤ Real.cos (48 * (π / 180)) ∧
      Real.cos (48 * (π / 180)) ≤ 0.669130609111 :=
  cos_enclosure (a := 4 * 3.14159265358979323846 / 15)
    (b := 4 * 3.14159265358979323847 / 15)
    (by norm_num) (by linarith [Real.pi_gt_d20]) (by linarith [Real.pi_lt_d20])
    (by norm_num) (by norm_num [Pc]) (by norm_num [Pc])

theorem sin_pi_div_four_bounds :
    0.707106778179 ≤ Real.sin (π / 4) ∧ Real.sin (π / 4) ≤ 0.70710678418 :=
  sin_enclosure (a := 3.14159265358979323846 / 4)
    (b := 3.14159265358979323847 / 4)
    (by norm_num) (by linarith [Real.pi_gt_d20]) (by linarith [Real.pi_lt_d20])
    (by norm_num) (by norm_num [Ps]) (by norm_num [Ps])

theorem cos_pi_div_four_bounds :
    0.707106778071 ≤ Real.cos (π / 4) ∧ Real.cos (π / 4) ≤ 0.707106784072 :=
  cos_enclosure (a := 3.14159265358979323846 / 4)
    (b := 3.14159265358979323847 / 4)
    (by norm_num) (by linarith [Real.pi_gt_d20]) (by linarith [Real.pi_lt_d20])
    (by norm_num) (by norm_num [Pc]) (by norm_num [Pc])

theorem sin_pi_div_twelve_bounds :
    0.258819042102 ≤ Real.sin (π / 12) ∧ Real.sin (π / 12) ≤ 0.258819048103 :=
  sin_enclosure (a := 3.14159265358979323846 / 12)
    (b := 3.14159265358979323847 / 12)
    (by norm_num) (by linarith [Real.pi_gt_d20]) (by linarith [Real.pi_lt_d20])
    (by norm_num) (by norm_num [Ps]) (by norm_num [Ps])

theorem cos_pi_div_twelve_bounds :
    0.965925823289 ≤ Real.cos (π / 12) ∧ Real.cos (π / 12) ≤ 0.96592582929 :=
  cos_enclosure (a := 3.14159265358979323846 / 12)
    (b := 3.14159265358979323847 / 12)
    (by norm_num) (by linarith [Real.pi_gt_d20]) (by linarith [Real.pi_lt_d20])
    (by norm_num) (by norm_num [Pc]) (by norm_num [Pc])

theorem mul_interval {x y a b c d : ℝ} (hxa : a ≤ x) (hxb : x ≤ b) (hyc : c ≤ y)
    (hyd : y ≤ d) (ha : 0 ≤ a) (hc : 0 ≤ c) :
    a * c ≤ x * y ∧ x * y ≤ b * d := by
  constructor
  · nlinarith
  · nlinarith

/-! Claim theorems. -/

/-- C1: for every latitude, stars `s1 = (ra1, dec1)` and `s2 = (ra2, dec2)`
with non-zero determinant `d`, and every `err_ra`, `err_dec`,
`compute_alignment_error` returns exactly the pair
`(a11·err_ra + a12·err_dec, a21·err_ra + a22·err_dec)` with the matrix
elements as given by the spec's formulas, all trigonometry taken on the
radian values of the inputs. -/
theorem c1_solver_formulas (lat ra1 dec1 ra2 dec2 err_ra err_dec : ℝ)
    (h : spec_d lat ra1 dec1 ra2 dec2 ≠ 0) :
    compute_alignment_error lat ⟨ra1, dec1⟩ ⟨ra2, dec2⟩ err_ra err_dec =
      some (spec_a11 lat ra1 dec1 ra2 dec2 * err_ra +
              spec_a12 lat ra1 dec1 ra2 dec2 * err_dec,
            spec_a21 lat ra1 dec1 ra2 dec2 * err_ra +
              spec_a22 lat ra1 dec1 ra2 dec2 * err_dec) :=
  compute_alignment_error_eq_some h

/-- Witness for C1 at `lat = 0`, `s1 = (0, π/4)`, `s2 = (π, π/4)`,
`err_ra = err_dec = 1`: the determinant is `4` and the function returns
`(-1/2, 1/2)`. -/
theorem c1_solver_formulas_witness :
    spec_d 0 0 (π / 4) π (π / 4) ≠ 0 ∧
      compute_alignment_error 0 ⟨0, π / 4⟩ ⟨π, π / 4⟩ 1 1 = some (-(1 / 2), 1 / 2) := by
  have hd : spec_d 0 0 (π / 4) π (π / 4) = 4 := by
    simp [spec_d, Real.tan_pi_div_four, zero_sub, Real.cos_neg, Real.cos_pi]
    norm_num
  have hne : spec_d 0 0 (π / 4) π (π / 4) ≠ 0 := by rw [hd]; norm_num
  refine ⟨hne, ?_⟩
  rw [c1_solver_formulas 0 0 (π / 4) π (π / 4) 1 1 hne]
  simp only [spec_a11, spec_a12, spec_a21, spec_a22, hd, Real.tan_pi_div_four,
    Real.cos_pi, Real.sin_pi, Real.cos_zero, Real.sin_zero]
  norm_num

/-- C2 (amended): `compute_alignment_error` has no epsilon threshold and no
`SingularConfiguration` error: it fails (Python's `ZeroDivisionError`,
modelled by `none`) exactly when the determinant is exactly zero, and in
particular it fails whenever `s1.ra == s2.ra`; for every non-zero
determinant, however small, it returns a result. -/
theorem c2_failure_iff_zero_determinant (lat ra1 dec1 ra2 dec2 e1 e2 : ℝ) :
    (compute_alignment_error lat ⟨ra1, dec1⟩ ⟨ra2, dec2⟩ e1 e2 = none ↔
      spec_d lat ra1 dec1 ra2 dec2 = 0) ∧
    compute_alignment_error lat ⟨ra1, dec1⟩ ⟨ra1, dec2⟩ e1 e2 = none := by
  refine ⟨compute_alignment_error_eq_none_iff, ?_⟩
  rw [compute_alignment_error_eq_none_iff]
  simp [spec_d]

/-- Counterexample for C2 as stated: there is no epsilon such that every
input with `|d|` below it fails — for every positive threshold there is an
input whose determinant is non-zero but smaller, on which the function
returns a value instead of failing. -/
theorem c2_epsilon_guard_counterexample :
    ¬ ∃ ε : ℝ, 0 < ε ∧ ∀ lat ra1 dec1 ra2 dec2 e1 e2 : ℝ,
      |spec_d lat ra1 dec1 ra2 dec2| < ε →
        compute_alignment_error lat ⟨ra1, dec1⟩ ⟨ra2, dec2⟩ e1 e2 = none := by
  rintro ⟨ε, hε, h⟩
  set t : ℝ := min (ε / 8) 1 with ht
  have ht0 : 0 < t := lt_min (by linarith) one_pos
  have ht1 : t ≤ 1 := min_le_right _ _
  have htε : t ≤ ε / 8 := min_le_left _ _
  have hsin_pos : 0 < Real.sin t :=
    Real.sin_pos_of_pos_of_lt_pi ht0 (lt_of_le_of_lt ht1 (by linarith [Real.pi_gt_three]))
  have hsin_le : Real.sin t ≤ t := Real.sin_le ht0.le
  have hd : spec_d (π / 2 - t) π (π / 4) 0 (π / 4) = 4 * Real.sin t := by
    simp only [spec_d, Real.cos_pi_div_two_sub, Real.tan_pi_div_four, sub_zero,
      Real.cos_pi]
    ring
  have hlt : |spec_d (π / 2 - t) π (π / 4) 0 (π / 4)| < ε := by
    rw [hd, abs_of_pos (by positivity)]
    nlinarith
  have hnone := h _ _ _ _ _ 1 1 hlt
  rw [compute_alignment_error_eq_none_iff, hd] at hnone
  nlinarith

/-- C4: the Error Projector stage is exactly linear in the measured error:
scaling `(err_ra, err_dec)` by any real `k` scales both returned components
by exactly `k` (stated for all inputs: on a singular determinant both sides
fail identically). -/
theorem c4_projector_linear (lat ra1 dec1 ra2 dec2 e1 e2 k : ℝ) :
    compute_alignment_error lat ⟨ra1, dec1⟩ ⟨ra2, dec2⟩ (k * e1) (k * e2) =
      (compute_alignment_error lat ⟨ra1, dec1⟩ ⟨ra2, dec2⟩ e1 e2).map
        fun p => (k * p.1, k * p.2) := by
  by_cases h : spec_d lat ra1 dec1 ra2 dec2 = 0
  · rw [compute_alignment_error_eq_none_iff.2 h, compute_alignment_error_eq_none_iff.2 h]
    rfl
  · rw [compute_alignment_error_eq_some h, compute_alignment_error_eq_some h]
    simp only [Option.map_some', Option.some_inj, Prod.mk.injEq]
    constructor <;> ring

/-- C6 (amended): antipodal hour angles (`ra1 − ra2 = π`) do not make the
configuration degenerate: the factor `1 − cos(ra1 − ra2)` attains its maximum
value `2` there, and the determinant equals
`2·cos(lat)·(tan(dec1) + tan(dec2))`, which is non-zero unless `cos(lat) = 0`
or the tangents cancel. -/
theorem c6_antipodal_determinant (lat dec1 dec2 ra2 : ℝ) :
    spec_d lat (ra2 + π) dec1 ra2 dec2 =
      2 * Real.cos lat * (Real.tan dec1 + Real.tan dec2) := by
  simp only [spec_d, add_sub_cancel_left, Real.cos_pi]
  ring

/-- Counterexample for C6 as stated: at latitude `0`, declinations `π/4` and
antipodal hour angles `ra1 = π`, `ra2 = 0`, the determinant is `4` — not
near zero — and `compute_alignment_error` accepts the two stars, returning
`(1/2, -1/2)` for unit errors instead of rejecting them. -/
theorem c6_antipodal_counterexample :
    spec_d 0 π (π / 4) 0 (π / 4) = 4 ∧
      compute_alignment_error 0 ⟨π, π / 4⟩ ⟨0, π / 4⟩ 1 1 = some (1 / 2, -(1 / 2)) := by
  have hd : spec_d 0 π (π / 4) 0 (π / 4) = 4 := by
    simp [spec_d, Real.tan_pi_div_four, sub_zero, Real.cos_pi]
    norm_num
  have hne : spec_d 0 π (π / 4) 0 (π / 4) ≠ 0 := by rw [hd]; norm_num
  refine ⟨hd, ?_⟩
  rw [compute_alignment_error_eq_some hne]
  simp only [spec_a11, spec_a12, spec_a21, spec_a22, hd, Real.tan_pi_div_four,
    Real.cos_pi, Real.sin_pi, Real.cos_zero, Real.sin_zero]
  norm_num

/-- C9: swapping the two calibration stars negates the output: the
determinant is symmetric under the swap while all four matrix elements change
sign (stated for all inputs: on a singular determinant both sides fail
identically). -/
theorem c9_swap_negates (lat ra1 dec1 ra2 dec2 e1 e2 : ℝ) :
    compute_alignment_error lat ⟨ra2, dec2⟩ ⟨ra1, dec1⟩ e1 e2 =
      (compute_alignment_error lat ⟨ra1, dec1⟩ ⟨ra2, dec2⟩ e1 e2).map
        fun p => (-p.1, -p.2) := by
  by_cases h : spec_d lat ra1 dec1 ra2 dec2 = 0
  · have h' : spec_d lat ra2 dec2 ra1 dec1 = 0 := by rw [spec_d_swap]; exact h
    rw [compute_alignment_error_eq_none_iff.2 h', compute_alignment_error_eq_none_iff.2 h]
    rfl
  · have h' : spec_d lat ra2 dec2 ra1 dec1 ≠ 0 := by rw [spec_d_swap]; exact h
    rw [compute_alignment_error_eq_some h', compute_alignment_error_eq_some h]
    simp only [Option.map_some', Option.some_inj, Prod.mk.injEq,
      spec_a11, spec_a12, spec_a21, spec_a22, spec_d_swap]
    constructor <;> · field_simp; ring

/-- C10: `compute_alignment_error` has no epsilon guard on the determinant:
when `d` is exactly zero (for example `s1.ra == s2.ra`, giving the factor
`1 − cos 0 = 0`) it fails with a plain `ZeroDivisionError` (modelled by
`none`), and for every non-zero `d`, however small, it returns the offsets
without signalling any error. -/
theorem c10_exact_zero_guard_only (lat ra1 dec1 ra2 dec2 e1 e2 : ℝ) :
    compute_alignment_error lat ⟨ra1, dec1⟩ ⟨ra2, dec2⟩ e1 e2 =
      if spec_d lat ra1 dec1 ra2 dec2 = 0 then none
      else
        some (spec_a11 lat ra1 dec1 ra2 dec2 * e1 + spec_a12 lat ra1 dec1 ra2 dec2 * e2,
              spec_a21 lat ra1 dec1 ra2 dec2 * e1 + spec_a22 lat ra1 dec1 ra2 dec2 * e2) := by
  split_ifs with h
  · exact compute_alignment_error_eq_none_iff.2 h
  · exact compute_alignment_error_eq_some h

/-- C5: the offset frame built by `get_altaz_in_rotated_frame` has its origin
displaced from the true zenith-referenced frame by exactly the
`(delta_alt, delta_az)` rotation — the point at altitude `delta_alt` and
azimuth `delta_az` of the true frame is carried to the offset frame's origin
direction `(1, 0, 0)` — and the input coordinate is re-expressed by an exact
spherical rotation: the transform preserves all inner products on the sphere,
so it is a rigid rotation and not a small-angle linearization. -/
theorem c5_rotated_frame_exact {T L : Type} (delta_alt delta_az : ℝ) (t : T) (l : L)
    (alt az alt' az' : ℝ) :
    get_altaz_in_rotated_frame delta_alt delta_az t l delta_alt delta_az = (1, 0, 0) ∧
    dot3 (get_altaz_in_rotated_frame delta_alt delta_az t l alt az)
        (get_altaz_in_rotated_frame delta_alt delta_az t l alt' az') =
      dot3 (unitVector alt az) (unitVector alt' az') := by
  constructor
  · simp only [get_altaz_in_rotated_frame, rotZ, rotY, unitVector, Prod.mk.injEq]
    refine ⟨?_, ?_, ?_⟩
    · linear_combination (Real.cos delta_alt) ^ 2 * Real.sin_sq_add_cos_sq delta_az +
        Real.sin_sq_add_cos_sq delta_alt
    · ring
    · linear_combination -(Real.sin delta_alt * Real.cos delta_alt) *
        Real.sin_sq_add_cos_sq delta_az
  · simp only [get_altaz_in_rotated_frame]
    rw [dot3_rotY, dot3_rotZ]

/-- C8: both functions are deterministic: two calls with identical inputs
return identical outputs; the embedding is a pure function of its arguments,
mirroring the side-effect-free source, so no hidden state can affect the
result. -/
theorem c8_deterministic {T L : Type} (t : T) (l : L)
    (lat ra1 dec1 ra2 dec2 e1 e2 lat' ra1' dec1' ra2' dec2' e1' e2' : ℝ)
    (dalt daz alt az dalt' daz' alt' az' : ℝ)
    (h : lat = lat' ∧ ra1 = ra1' ∧ dec1 = dec1' ∧ ra2 = ra2' ∧ dec2 = dec2' ∧
      e1 = e1' ∧ e2 = e2' ∧ dalt = dalt' ∧ daz = daz' ∧ alt = alt' ∧ az = az') :
    compute_alignment_error lat ⟨ra1, dec1⟩ ⟨ra2, dec2⟩ e1 e2 =
      compute_alignment_error lat' ⟨ra1', dec1'⟩ ⟨ra2', dec2'⟩ e1' e2' ∧
    get_altaz_in_rotated_frame dalt daz t l alt az =
      get_altaz_in_rotated_frame dalt' daz' t l alt' az' := by
  obtain ⟨rfl, rfl, rfl, rfl, rfl, rfl, rfl, rfl, rfl, rfl, rfl⟩ := h
  exact ⟨rfl, rfl⟩

/-- Witness for C8 at concrete equal inputs. -/
theorem c8_deterministic_witness :
    compute_alignment_error 0 ⟨0, 0⟩ ⟨0, 0⟩ 0 0 =
        compute_alignment_error 0 ⟨0, 0⟩ ⟨0, 0⟩ 0 0 ∧
      get_altaz_in_rotated_frame 1 2 () () 3 4 =
        get_altaz_in_rotated_frame 1 2 () () 3 4 :=
  c8_deterministic () () 0 0 0 0 0 0 0 0 0 0 0 0 0 0 1 2 3 4 1 2 3 4
    ⟨rfl, rfl, rfl, rfl, rfl, rfl, rfl, rfl, rfl, rfl, rfl⟩

set_option maxHeartbeats 1000000 in
/-- C3: on the reference fixture — latitude 42°40′, s1 = (RA 3h, Dec 48°),
s2 = (RA 23h, Dec 45°), err_ra = −12′, err_dec = −21′, all converted to
radians — `compute_alignment_error` succeeds and returns `delta_alt` within
1e-4 arcmin of 7.3897 arcmin and `delta_az` within 1e-4 arcmin of
32.2597 arcmin. -/
theorem c3_reference_fixture :
    ∃ de da,
      compute_alignment_error ((42 + 40 / 60) * (π / 180))
          ⟨3 * (15 * (π / 180)), 48 * (π / 180)⟩
          ⟨23 * (15 * (π / 180)), 45 * (π / 180)⟩
          (-(12 * (π / 10800))) (-(21 * (π / 10800))) = some (de, da) ∧
        |de - 7.3897 * (π / 10800)| ≤ 1 / 10000 * (π / 10800) ∧
        |da - 32.2597 * (π / 10800)| ≤ 1 / 10000 * (π / 10800) := by
  have hra1s : Real.sin (3 * (15 * (π / 180))) = Real.sin (π / 4) := by
    rw [show (3 : ℝ) * (15 * (π / 180)) = π / 4 by ring]
  have hra1c : Real.cos (3 * (15 * (π / 180))) = Real.cos (π / 4) := by
    rw [show (3 : ℝ) * (15 * (π / 180)) = π / 4 by ring]
  have hra2s : Real.sin (23 * (15 * (π / 180))) = -Real.sin (π / 12) := by
    rw [show (23 : ℝ) * (15 * (π / 180)) = 2 * π - π / 12 by ring, Real.sin_two_pi_sub]
  have hra2c : Real.cos (23 * (15 * (π / 180))) = Real.cos (π / 12) := by
    rw [show (23 : ℝ) * (15 * (π / 180)) = 2 * π - π / 12 by ring, Real.cos_two_pi_sub]
  have hdec2 : Real.tan (45 * (π / 180)) = 1 := by
    rw [show (45 : ℝ) * (π / 180) = π / 4 by ring, Real.tan_pi_div_four]
  have hdiff : Real.cos (3 * (15 * (π / 180)) - 23 * (15 * (π / 180))) = 1 / 2 := by
    rw [show (3 : ℝ) * (15 * (π / 180)) - 23 * (15 * (π / 180)) = -(2 * π - π / 3) by
      ring, Real.cos_neg, Real.cos_two_pi_sub, Real.cos_pi_div_three]
  have htan1 : Real.tan (48 * (π / 180)) =
      Real.sin (48 * (π / 180)) / Real.cos (48 * (π / 180)) := Real.tan_eq_sin_div_cos _
  obtain ⟨hcLa, hcLb⟩ := cos_lat_bounds
  obtain ⟨hs1a, hs1b⟩ := sin_dec1_bounds
  obtain ⟨hc1a, hc1b⟩ := cos_dec1_bounds
  obtain ⟨hpa, hpb⟩ := sin_pi_div_four_bounds
  obtain ⟨hqa, hqb⟩ := cos_pi_div_four_bounds
  obtain ⟨hs12a, hs12b⟩ := sin_pi_div_twelve_bounds
  obtain ⟨hc12a, hc12b⟩ := cos_pi_div_twelve_bounds
  have hc1pos : (0 : ℝ) < Real.cos (48 * (π / 180)) := by linarith
  have hτa : (1.110612505753 : ℝ) ≤ Real.tan (48 * (π / 180)) := by
    rw [htan1, le_div_iff hc1pos]
    linarith
  have hτb : Real.tan (48 * (π / 180)) ≤ 1.110612524683 := by
    rw [htan1, div_le_iff hc1pos]
    linarith
  have hdmul := mul_interval hcLa hcLb
    (show (2.110612505753 : ℝ) ≤ Real.tan (48 * (π / 180)) + 1 by linarith)
    (show Real.tan (48 * (π / 180)) + 1 ≤ (2.110612524683 : ℝ) by linarith)
    (by norm_num) (by norm_num)
  have hd_eq : spec_d ((42 + 40 / 60) * (π / 180)) (3 * (15 * (π / 180)))
      (48 * (π / 180)) (23 * (15 * (π / 180))) (45 * (π / 180)) =
      Real.cos ((42 + 40 / 60) * (π / 180)) * (Real.tan (48 * (π / 180)) + 1) * (1 / 2) := by
    simp only [spec_d, hdec2, hdiff]
    norm_num
  have hda : (0.775976190771 : ℝ) ≤ spec_d ((42 + 40 / 60) * (π / 180))
      (3 * (15 * (π / 180))) (48 * (π / 180)) (23 * (15 * (π / 180)))
      (45 * (π / 180)) := by
    rw [hd_eq]
    linarith [hdmul.1]
  have hdb : spec_d ((42 + 40 / 60) * (π / 180)) (3 * (15 * (π / 180)))
      (48 * (π / 180)) (23 * (15 * (π / 180))) (45 * (π / 180)) ≤
      0.775976204065 := by
    rw [hd_eq]
    linarith [hdmul.2]
  have hdpos : (0 : ℝ) < spec_d ((42 + 40 / 60) * (π / 180)) (3 * (15 * (π / 180)))
      (48 * (π / 180)) (23 * (15 * (π / 180))) (45 * (π / 180)) := by linarith
  have hdne : spec_d ((42 + 40 / 60) * (π / 180)) (3 * (15 * (π / 180)))
      (48 * (π / 180)) (23 * (15 * (π / 180))) (45 * (π / 180)) ≠ 0 := ne_of_gt hdpos
  obtain ⟨hG1, hG2⟩ := mul_interval hτa hτb hqa hqb (by norm_num) (by norm_num)
  obtain ⟨hH1, hH2⟩ := mul_interval hτa hτb hpa hpb (by norm_num) (by norm_num)
  refine ⟨_, _, compute_alignment_error_eq_some hdne, ?_, ?_⟩
  · simp only [spec_a11, spec_a12]
    set D := spec_d ((42 + 40 / 60) * (π / 180)) (3 * (15 * (π / 180)))
      (48 * (π / 180)) (23 * (15 * (π / 180))) (45 * (π / 180)) with hD
    rw [hra1s, hra1c, hra2s, hra2c, hdec2]
    have hrw : Real.cos ((42 + 40 / 60) * (π / 180)) *
          (-Real.sin (π / 12) - Real.sin (π / 4)) / D * (-(12 * (π / 10800))) +
        -(Real.cos ((42 + 40 / 60) * (π / 180)) *
          (Real.tan (48 * (π / 180)) * Real.cos (π / 4) - 1 * Real.cos (π / 12))) / D *
          (-(21 * (π / 10800))) =
        π / 10800 * (Real.cos ((42 + 40 / 60) * (π / 180)) *
          (12 * (Real.sin (π / 12) + Real.sin (π / 4)) +
            21 * (Real.tan (48 * (π / 180)) * Real.cos (π / 4) - Real.cos (π / 12))) / D) := by
      field_simp
      ring
    rw [hrw]
    have hI1 : (7.798421671477 : ℝ) ≤
        12 * (Real.sin (π / 12) + Real.sin (π / 4)) +
          21 * (Real.tan (48 * (π / 180)) * Real.cos (π / 4) - Real.cos (π / 12)) := by
      linarith
    have hI2 : 12 * (Real.sin (π / 12) + Real.sin (π / 4)) +
          21 * (Real.tan (48 * (π / 180)) * Real.cos (π / 4) - Real.cos (π / 12)) ≤
        7.798422362580 := by
      linarith
    have hMmul := mul_interval hcLa hcLb hI1 hI2 (by norm_num) (by norm_num)
    have hM1 : (5.734249679816 : ℝ) ≤
        Real.cos ((42 + 40 / 60) * (π / 180)) *
          (12 * (Real.sin (π / 12) + Real.sin (π / 4)) +
            21 * (Real.tan (48 * (π / 180)) * Real.cos (π / 4) - Real.cos (π / 12))) := by
      linarith [hMmul.1]
    have hM2 : Real.cos ((42 + 40 / 60) * (π / 180)) *
          (12 * (Real.sin (π / 12) + Real.sin (π / 4)) +
            21 * (Real.tan (48 * (π / 180)) * Real.cos (π / 4) - Real.cos (π / 12))) ≤
        5.734250234789 := by
      linarith [hMmul.2]
    have hfrac : |Real.cos ((42 + 40 / 60) * (π / 180)) *
          (12 * (Real.sin (π / 12) + Real.sin (π / 4)) +
            21 * (Real.tan (48 * (π / 180)) * Real.cos (π / 4) - Real.cos (π / 12))) / D -
          7.3897| ≤ 1 / 10000 := by
      rw [abs_le]
      constructor
      · have h1 : (7.3896 : ℝ) ≤ Real.cos ((42 + 40 / 60) * (π / 180)) *
            (12 * (Real.sin (π / 12) + Real.sin (π / 4)) +
              21 * (Real.tan (48 * (π / 180)) * Real.cos (π / 4) - Real.cos (π / 12))) / D := by
          rw [le_div_iff hdpos]
          linarith
        linarith
      · have h2 : Real.cos ((42 + 40 / 60) * (π / 180)) *
            (12 * (Real.sin (π / 12) + Real.sin (π / 4)) +
              21 * (Real.tan (48 * (π / 180)) * Real.cos (π / 4) - Real.cos (π / 12))) / D ≤
            7.3898 := by
          rw [div_le_iff hdpos]
          linarith
        linarith
    calc |π / 10800 * (Real.cos ((42 + 40 / 60) * (π / 180)) *
            (12 * (Real.sin (π / 12) + Real.sin (π / 4)) +
              21 * (Real.tan (48 * (π / 180)) * Real.cos (π / 4) - Real.cos (π / 12))) / D) -
          7.3897 * (π / 10800)|
        = π / 10800 * |Real.cos ((42 + 40 / 60) * (π / 180)) *
            (12 * (Real.sin (π / 12) + Real.sin (π / 4)) +
              21 * (Real.tan (48 * (π / 180)) * Real.cos (π / 4) - Real.cos (π / 12))) / D -
            7.3897| := by
          rw [show π / 10800 * (Real.cos ((42 + 40 / 60) * (π / 180)) *
              (12 * (Real.sin (π / 12) + Real.sin (π / 4)) +
                21 * (Real.tan (48 * (π / 180)) * Real.cos (π / 4) - Real.cos (π / 12))) / D) -
              7.3897 * (π / 10800) =
              π / 10800 * (Real.cos ((42 + 40 / 60) * (π / 180)) *
                (12 * (Real.sin (π / 12) + Real.sin (π / 4)) +
                  21 * (Real.tan (48 * (π / 180)) * Real.cos (π / 4) - Real.cos (π / 12))) / D -
                7.3897) by ring, abs_mul, abs_of_pos (by positivity : (0 : ℝ) < π / 10800)]
      _ ≤ π / 10800 * (1 / 10000) :=
          mul_le_mul_of_nonneg_left hfrac (by positivity)
      _ = 1 / 10000 * (π / 10800) := by ring
  · simp only [spec_a21, spec_a22]
    set D := spec_d ((42 + 40 / 60) * (π / 180)) (3 * (15 * (π / 180)))
      (48 * (π / 180)) (23 * (15 * (π / 180))) (45 * (π / 180)) with hD
    rw [hra1s, hra1c, hra2s, hra2c, hdec2]
    have hrw : (Real.cos (π / 4) - Real.cos (π / 12)) / D * (-(12 * (π / 10800))) +
        (1 * -Real.sin (π / 12) -
            Real.tan (48 * (π / 180)) * Real.sin (π / 4)) / D * (-(21 * (π / 10800))) =
        π / 10800 * ((12 * (Real.cos (π / 12) - Real.cos (π / 4)) +
          21 * (Real.sin (π / 12) +
            Real.tan (48 * (π / 180)) * Real.sin (π / 4))) / D) := by
      field_simp
      ring
    rw [hrw]
    have hM1 : (25.03278260046 : ℝ) ≤
        12 * (Real.cos (π / 12) - Real.cos (π / 4)) +
          21 * (Real.sin (π / 12) + Real.tan (48 * (π / 180)) * Real.sin (π / 4)) := by
      linarith
    have hM2 : 12 * (Real.cos (π / 12) - Real.cos (π / 4)) +
          21 * (Real.sin (π / 12) + Real.tan (48 * (π / 180)) * Real.sin (π / 4)) ≤
        25.032783291563 := by
      linarith
    have hfrac : |(12 * (Real.cos (π / 12) - Real.cos (π / 4)) +
          21 * (Real.sin (π / 12) + Real.tan (48 * (π / 180)) * Real.sin (π / 4))) / D -
          32.2597| ≤ 1 / 10000 := by
      rw [abs_le]
      constructor
      · have h1 : (32.2596 : ℝ) ≤ (12 * (Real.cos (π / 12) - Real.cos (π / 4)) +
            21 * (Real.sin (π / 12) + Real.tan (48 * (π / 180)) * Real.sin (π / 4))) / D := by
          rw [le_div_iff hdpos]
          linarith
        linarith
      · have h2 : (12 * (Real.cos (π / 12) - Real.cos (π / 4)) +
            21 * (Real.sin (π / 12) + Real.tan (48 * (π / 180)) * Real.sin (π / 4))) / D ≤
            32.2598 := by
          rw [div_le_iff hdpos]
          linarith
        linarith
    calc |π / 10800 * ((12 * (Real.cos (π / 12) - Real.cos (π / 4)) +
            21 * (Real.sin (π / 12) + Real.tan (48 * (π / 180)) * Real.sin (π / 4))) / D) -
          32.2597 * (π / 10800)|
        = π / 10800 * |(12 * (Real.cos (π / 12) - Real.cos (π / 4)) +
            21 * (Real.sin (π / 12) + Real.tan (48 * (π / 180)) * Real.sin (π / 4))) / D -
            32.2597| := by
          rw [show π / 10800 * ((12 * (Real.cos (π / 12) - Real.cos (π / 4)) +
              21 * (Real.sin (π / 12) + Real.tan (48 * (π / 180)) * Real.sin (π / 4))) / D) -
              32.2597 * (π / 10800) =
              π / 10800 * ((12 * (Real.cos (π / 12) - Real.cos (π / 4)) +
                21 * (Real.sin (π / 12) + Real.tan (48 * (π / 180)) * Real.sin (π / 4))) / D -
                32.2597) by ring, abs_mul, abs_of_pos (by positivity : (0 : ℝ) < π / 10800)]
      _ ≤ π / 10800 * (1 / 10000) :=
          mul_le_mul_of_nonneg_left hfrac (by positivity)
      _ = 1 / 10000 * (π / 10800) := by ring

end AlignmentErrorUtil
